import Mathlib

/-!
Verification of the `featureservice` module (src/index.js): a shallow
embedding in Lean 4 of the pagination planner, the retry/abort engine,
the response decoder and the metadata resolver, together with theorems
checking the natural-language specification against the code.

Conventions of the embedding:
* JavaScript numbers that are in practice non-negative integers (object
  ids, page sizes, counts) are modelled as `Nat`; values that may be
  negative (a parsed `maxRecordCount`) as `Int`.
* A JavaScript value that may be `undefined` is an `Option`.
* JavaScript truthiness is made explicit at each use site (`0`, `""`,
  `NaN` and `undefined` are falsy).
* Strings are manipulated through their character lists so that every
  definition reduces inside the kernel.
-/

/-! ## Small string utilities (models of the JS string primitives used) -/

/-- Model of `url.split('/')` on character lists. -/
def splitSlash : List Char → List (List Char)
  | [] => [[]]
  | c :: rest =>
    let r := splitSlash rest
    if c = '/' then [] :: r else (c :: r.headD []) :: r.tail

/-- Digits of a decimal prefix turned into a number: `parseInt` keeps the
longest leading run of digits and fails (returns `NaN`) when there is
none.  Returns `none` for the `NaN` case. -/
def digitsToNat (cs : List Char) : Option Nat :=
  let ds := cs.takeWhile Char.isDigit
  if ds = [] then none
  else some (ds.foldl (fun a c => a * 10 + (c.toNat - 48)) 0)

/-- Model of JavaScript `parseInt(s, 10)`: optional leading spaces, an
optional sign, then a run of decimal digits; trailing garbage is
ignored; `none` models `NaN`. -/
def parseIntJs (cs : List Char) : Option Int :=
  let cs := cs.dropWhile (fun c => c = ' ')
  match cs with
  | '-' :: rest => (digitsToNat rest).map (fun n => -(n : Int))
  | '+' :: rest => (digitsToNat rest).map (fun n => (n : Int))
  | other => (digitsToNat other).map (fun n => (n : Int))

/-- Ceiling division on `Nat`: `Math.ceil(a / b)` for non-negative `a`
and positive `b`. -/
def ceilDivNat (a b : Nat) : Nat := (a + b - 1) / b

/-! ## Constructor (src/index.js lines 16-42)

`FeatureService(url, options)` inspects the last `/`-segment of the url:
if `parseInt(end, 10) >= 0` the segment is kept as the layer (a string)
and stripped from the stored url.  `this.layer = layer || options.layer
|| 0`. -/

/-- The state a `FeatureService` instance carries that the page builders
read: the stored base url, the layer segment taken from the constructor
url (if any), and `options.layer`. -/
structure ServiceInst where
  url : String
  layerFromUrl : Option String
  optionsLayer : Option Nat
deriving DecidableEq

/-- Model of the constructor body (src/index.js lines 22-34): take the
last `/`-segment; when `parseInt(end, 10) >= 0` record it as the layer
and strip `(len || 2) + 1` characters from the end of the url. -/
def featureServiceInit (url : String) (optionsLayer : Option Nat) : ServiceInst :=
  let endSeg : String := String.mk ((splitSlash url.toList).getLastD [])
  match parseIntJs endSeg.toList with
  | some v =>
    if 0 ≤ v then
      let len := endSeg.length
      let keep := url.length - ((if len = 0 then 2 else len) + 1)
      ⟨String.mk (url.toList.take keep), some endSeg, optionsLayer⟩
    else ⟨url, none, optionsLayer⟩
  | none => ⟨url, none, optionsLayer⟩

/-- Fallback of `this.layer` when no layer was parsed from the url:
`options.layer || 0` (with `0` falsy). -/
def optionsLayerFallback (s : ServiceInst) : String :=
  match s.optionsLayer with
  | some n => if n = 0 then "0" else toString n
  | none => "0"

/-- `this.layer = layer || this.options.layer || 0` (src/index.js line
34), rendered as the string that would appear in a url. -/
def instLayer (s : ServiceInst) : String :=
  match s.layerFromUrl with
  | some l => if l = "" then optionsLayerFallback s else l
  | none => optionsLayerFallback s

/-- The layer index the page builders actually interpolate into page
urls: `this.options.layer || 0` (src/index.js lines 294, 322, 360) —
note this is not `this.layer`. -/
def pageLayer (optionsLayer : Option Nat) : Nat :=
  match optionsLayer with
  | some n => if n = 0 then 0 else n
  | none => 0

/-! ## Offset pages (src/index.js lines 287-302) and the `pages()` size
computation (line 216) -/

/-- One request produced by `_offsetPages`; the `resultOffset` and
`resultRecordCount` fields repeat the values interpolated into `req`. -/
structure OffsetReq where
  resultOffset : Nat
  resultRecordCount : Nat
  req : String
deriving DecidableEq

/-- Url built for one offset page (src/index.js lines 294-297). -/
def offsetPageUrl (url : String) (optionsLayer : Option Nat) (offset rrc : Nat) : String :=
  url ++ "/" ++ toString (pageLayer optionsLayer) ++
    "/query?outSR=4326&f=json&outFields=*&where=1=1" ++
    "&resultOffset=" ++ toString offset ++
    "&resultRecordCount=" ++ toString rrc ++
    "&geometry=&returnGeometry=true&geometryPrecision="

/-- Model of `_offsetPages(pages, max)`: for `i` in `[0, pages)` one
request with `resultOffset = i * max` and `resultRecordCount = max`. -/
def offsetPages (url : String) (optionsLayer : Option Nat) (pages max : Nat) : List OffsetReq :=
  (List.range pages).map (fun i => ⟨i * max, max, offsetPageUrl url optionsLayer (i * max) max⟩)

/-- Model of `size = Math.min(parseInt(size, 10), 1000) || 1000`
(src/index.js line 216).  `none` models `parseInt` returning `NaN`
(so `Math.min` is `NaN`, falsy); a parsed value of `0` gives `min 0
1000 = 0`, falsy, hence `1000`. -/
def effectiveSize (maxRecordCount : Option Int) : Int :=
  match maxRecordCount with
  | none => 1000
  | some m => let s := min m 1000; if s = 0 then 1000 else s

/-- The native-pagination branch of `pages()` (src/index.js lines
213-221): `nPages = Math.ceil(count / size)` followed by
`_offsetPages(nPages, size)`.  When the effective size is not positive
the JS loop body never runs (`nPages <= 0`), producing no requests. -/
def pagesPlanNative (url : String) (optionsLayer : Option Nat) (count : Nat)
    (maxRecordCount : Option Int) : List OffsetReq :=
  let size := effectiveSize maxRecordCount
  if 0 < size then offsetPages url optionsLayer (ceilDivNat count size.toNat) size.toNat
  else []

/-! ## Range pages (src/index.js lines 339-366) -/

/-- One request produced by `_rangePages`; `pageMin`/`pageMax` repeat
the bounds interpolated into the where clause. -/
structure RangePage where
  pageMin : Nat
  pageMax : Nat
  whereClause : String
  req : String
deriving DecidableEq

/-- `Math.max((stats.max === size) ? stats.max : Math.ceil((stats.max -
stats.min) / size), 1)` (src/index.js line 348). -/
def rangePageCount (mn mx size : Nat) : Nat :=
  Nat.max (if mx = size then mx else ceilDivNat (mx - mn) size) 1

/-- One iteration of the `_rangePages` loop (src/index.js lines
350-362): the last page's upper bound is forced to the global maximum. -/
def rangePage (oid url : String) (optionsLayer : Option Nat) (mn mx size pages i : Nat) : RangePage :=
  let pageMax := if i = pages - 1 then mx else mn + size * (i + 1) - 1
  let pageMin := mn + size * i
  let w := oid ++ "<=" ++ toString pageMax ++ "+AND+" ++ oid ++ ">=" ++ toString pageMin
  ⟨pageMin, pageMax, w,
    url ++ "/" ++ toString (pageLayer optionsLayer) ++ "/query?outSR=4326&where=" ++ w ++
      "&f=json&outFields=*" ++ "&geometry=&returnGeometry=true&geometryPrecision="⟩

/-- Model of `_rangePages(stats, size)`. -/
def rangePages (oid url : String) (optionsLayer : Option Nat) (mn mx size : Nat) : List RangePage :=
  (List.range (rangePageCount mn mx size)).map
    (rangePage oid url optionsLayer mn mx size (rangePageCount mn mx size))

/-! ## Id pages (src/index.js lines 310-329) -/

/-- One request produced by `_idPages`. -/
structure IdPage where
  pageMin : Nat
  pageMax : Nat
  whereClause : String
  req : String
deriving DecidableEq

/-- Number of iterations of the `_idPages` loop: `for (i = 0; i < pages
+ 1; i++)` with `pages = ids.length / size` evaluated as real division;
for `size > 0` the integers `i` with `i < len/size + 1` are exactly
those with `i * size < len + size`, and there are
`ceil((len + size) / size) = (len + 2*size - 1) / size` of them. -/
def idPagesIterCount (len size : Nat) : Nat := (len + 2 * size - 1) / size

/-- The `_idPages` loop (src/index.js lines 315-326): each iteration
splices the next `size` ids off the front; empty chunks are skipped;
`pageMin` is `firstId - 1` unless `firstId` is `0`; `pageMax` is the
last id of the chunk.  The second field name of the where clause is the
literal string `"oidField"` — the source quotes the variable name
(src/index.js line 321). -/
def idPagesGo (oid url : String) (optionsLayer : Option Nat) (size : Nat) :
    Nat → List Nat → List IdPage
  | 0, _ => []
  | fuel + 1, ids =>
    let pageIds := ids.take size
    let rest := ids.drop size
    match pageIds with
    | [] => idPagesGo oid url optionsLayer size fuel rest
    | first :: more =>
      let pageMin := if first = 0 then first else first - 1
      let pageMax := (first :: more).getLastD first
      let w := oid ++ " > " ++ toString pageMin ++ " AND " ++ "oidField" ++ "<=" ++
        toString pageMax
      let r := url ++ "/" ++ toString (pageLayer optionsLayer) ++ "/query?outSR=4326&where=" ++
        w ++ "&f=json&outFields=*" ++ "&geometry=&returnGeometry=true&geometryPrecision=10"
      ⟨pageMin, pageMax, w, r⟩ :: idPagesGo oid url optionsLayer size fuel rest

/-- Model of `_idPages(ids, size)`. -/
def idPages (oid url : String) (optionsLayer : Option Nat) (size : Nat) (ids : List Nat) :
    List IdPage :=
  idPagesGo oid url optionsLayer size (idPagesIterCount ids.length size) ids

/-! ## JSON values and a model of `JSON.parse`

The spec treats JSON parsing as an external primitive; the decoder
claims nevertheless need parse results on concrete bodies, so the
subset of JSON the service emits (objects, arrays, escape-free strings,
integers, booleans, null) is parsed here.  Anything outside that subset
fails to parse, as does the literal token `NaN`, which is the behavior
the sanitization claims depend on. -/

inductive Json where
  | null
  | jbool (b : Bool)
  | jnum (n : Int)
  | jstr (s : String)
  | jarr (xs : List Json)
  | jobj (kvs : List (String × Json))
deriving Repr

/-- Skip JSON whitespace. -/
def skipWs : List Char → List Char
  | [] => []
  | c :: cs => if c = ' ' ∨ c = '\n' ∨ c = '\t' ∨ c = '\r' then skipWs cs else c :: cs

/-- Body of a string literal after the opening quote; escapes are not
part of the modelled subset. -/
def parseStringBody : List Char → Option (String × List Char)
  | [] => none
  | c :: rest =>
    if c = '"' then some ("", rest)
    else if c = '\\' then none
    else
      match parseStringBody rest with
      | some (s, rest2) => some (String.mk (c :: s.toList), rest2)
      | none => none

mutual

/-- Parse one JSON value (no leading whitespace); fuel bounds recursion
depth. -/
def parseVal : Nat → List Char → Option (Json × List Char)
  | 0, _ => none
  | fuel + 1, cs =>
    match cs with
    | [] => none
    | c :: rest =>
      if c = '\x7b' then
        let cs1 := skipWs rest
        match cs1 with
        | '\x7d' :: rest2 => some (Json.jobj [], rest2)
        | _ =>
          match parseMembers fuel cs1 with
          | some (kvs, rest2) => some (Json.jobj kvs, rest2)
          | none => none
      else if c = '[' then
        let cs1 := skipWs rest
        match cs1 with
        | ']' :: rest2 => some (Json.jarr [], rest2)
        | _ =>
          match parseItems fuel cs1 with
          | some (xs, rest2) => some (Json.jarr xs, rest2)
          | none => none
      else if c = '"' then
        match parseStringBody rest with
        | some (s, rest2) => some (Json.jstr s, rest2)
        | none => none
      else if c = '-' then
        match digitsToNat rest with
        | some n => some (Json.jnum (-(n : Int)), rest.dropWhile Char.isDigit)
        | none => none
      else if c.isDigit then
        match digitsToNat (c :: rest) with
        | some n => some (Json.jnum n, (c :: rest).dropWhile Char.isDigit)
        | none => none
      else
        match cs with
        | 'n' :: 'u' :: 'l' :: 'l' :: rest2 => some (Json.null, rest2)
        | 't' :: 'r' :: 'u' :: 'e' :: rest2 => some (Json.jbool true, rest2)
        | 'f' :: 'a' :: 'l' :: 's' :: 'e' :: rest2 => some (Json.jbool false, rest2)
        | _ => none

/-- Parse the items of an array after the opening bracket. -/
def parseItems : Nat → List Char → Option (List Json × List Char)
  | 0, _ => none
  | fuel + 1, cs =>
    match parseVal fuel cs with
    | none => none
    | some (j, rest) =>
      match skipWs rest with
      | ',' :: rest2 =>
        match parseItems fuel (skipWs rest2) with
        | some (xs, rest3) => some (j :: xs, rest3)
        | none => none
      | ']' :: rest2 => some ([j], rest2)
      | _ => none

/-- Parse the members of an object after the opening brace. -/
def parseMembers : Nat → List Char → Option (List (String × Json) × List Char)
  | 0, _ => none
  | fuel + 1, cs =>
    match cs with
    | '"' :: rest =>
      match parseStringBody rest with
      | none => none
      | some (k, rest1) =>
        match skipWs rest1 with
        | ':' :: rest2 =>
          match parseVal fuel (skipWs rest2) with
          | none => none
          | some (v, rest3) =>
            match skipWs rest3 with
            | ',' :: rest4 =>
              match parseMembers fuel (skipWs rest4) with
              | some (kvs, rest5) => some ((k, v) :: kvs, rest5)
              | none => none
            | '\x7d' :: rest4 => some ([(k, v)], rest4)
            | _ => none
        | _ => none
    | _ => none

end

/-- Model of `JSON.parse`: one value, then only trailing whitespace. -/
def parseJson (s : String) : Option Json :=
  match parseVal (s.length + 1) (skipWs s.toList) with
  | some (j, rest) => if skipWs rest = [] then some j else none
  | none => none

/-- Property lookup `j.k` on a parsed value: `none` models `undefined`. -/
def Json.getField : Json → String → Option Json
  | Json.jobj kvs, k => (kvs.find? (fun kv => kv.1 == k)).map (fun kv => kv.2)
  | _, _ => none

/-- JavaScript truthiness of a parsed JSON value. -/
def jsTruthy : Json → Bool
  | Json.null => false
  | Json.jbool b => b
  | Json.jnum n => n != 0
  | Json.jstr s => s != ""
  | Json.jarr _ => true
  | Json.jobj _ => true

/-! ## Response decoding (src/index.js lines 436-460) -/

/-- Model of `.replace(/NaN/g, 'null')`: left-to-right, non-overlapping
replacement of every literal `NaN`. -/
def replaceNaN : List Char → List Char
  | 'N' :: 'a' :: 'N' :: rest => 'n' :: 'u' :: 'l' :: 'l' :: replaceNaN rest
  | c :: rest => c :: replaceNaN rest
  | [] => []

/-- NaN-token sanitization applied to a whole body. -/
def sanitizeNaN (s : String) : String := String.mk (replaceNaN s.toList)

/-- The errors `_decode` can report. `serviceError` carries the `error`
field of a payload that parsed successfully. -/
inductive DecodeErr where
  | emptyResponse
  | parseFailed
  | serviceError (e : Json)
deriving Repr

/-- What one run of `_decode` does: the arguments of every `callback`
invocation in order, and whether control reached the `json.error`
member access with `json` still `undefined` (which throws a TypeError
in JavaScript). -/
structure DecodeOutcome where
  calls : List (Except DecodeErr Json)
  crashed : Bool

/-- The text handed to `JSON.parse` by `_decode` (src/index.js lines
443-448): decompression is external and lossless, so chunks stand for
the already-decompressed text; `gzip` and the unrecognized-encoding
branch sanitize `NaN` tokens, the `deflate` branch does not. -/
def decodeText (encoding : Option String) (chunks : List String) : String :=
  let buffer := String.join chunks
  if encoding = some "gzip" then sanitizeNaN buffer
  else if encoding = some "deflate" then buffer
  else sanitizeNaN buffer

/-- Model of `_decode(res, data, callback)` (src/index.js lines
436-460).  The empty-data branch returns; the catch branch invokes the
callback but does not return, after which `json.error` is evaluated
with `json` undefined — recorded as `crashed := true`. -/
def decodeRun (encoding : Option String) (chunks : List String) : DecodeOutcome :=
  if chunks.length = 0 then ⟨[Except.error DecodeErr.emptyResponse], false⟩
  else
    match parseJson (decodeText encoding chunks) with
    | none => ⟨[Except.error DecodeErr.parseFailed], true⟩
    | some j =>
      match j.getField "error" with
      | some e =>
        if jsTruthy e then ⟨[Except.error (DecodeErr.serviceError e)], false⟩
        else ⟨[Except.ok j], false⟩
      | none => ⟨[Except.ok j], false⟩

/-! ## Error normalization (src/index.js lines 492-501) -/

/-- The fields `_buildError` reads off the raw error it is given. -/
structure ErrIn where
  type : Option String
  code : Option Int
deriving DecidableEq

/-- The error shape `_buildError` produces.  `response` is assigned
`error.message` right after `message` is set, so it always equals
`message`. -/
structure NormalizedError where
  message : String
  request : String
  response : String
  type : String
  code : Int
deriving DecidableEq

/-- Model of `_buildError(url, message, error)`: `type` defaults to
`"Unknown failure"` and `code` to `500` when unset or falsy. -/
def buildError (url message : String) (e : ErrIn) : NormalizedError :=
  ⟨message, url, message,
    (match e.type with
     | some t => if t = "" then "Unknown failure" else t
     | none => "Unknown failure"),
    (match e.code with
     | some c => if c = 0 then 500 else c
     | none => 500)⟩

/-- The raw error `_decode` hands to `_catchErrors`, reduced to the
fields `_buildError` reads: the two literal `{type: ...}` objects, or
the `type`/`code` members of an embedded service error. -/
def errInOfDecodeErr : DecodeErr → ErrIn
  | DecodeErr.emptyResponse => ⟨some "Response from the server was empty", none⟩
  | DecodeErr.parseFailed => ⟨some "Failed to parse feature response", none⟩
  | DecodeErr.serviceError e =>
    ⟨(match e.getField "type" with | some (Json.jstr s) => some s | _ => none),
     (match e.getField "code" with | some (Json.jnum n) => some n | _ => none)⟩

/-! ## Retry and abort (src/index.js lines 468-484 and 508-511) -/

/-- The branch decision of `_catchErrors` as a function of
`task.retry` (`none` models the property being unset): `none` means
abort (`task.retry && task.retry === 3`), `some n` means the task is
re-scheduled with its counter now `n` (`task.retry = 1` when unset or
falsy, `task.retry++` otherwise). -/
def retryDecision (retry : Option Nat) : Option Nat :=
  if (match retry with | some n => n != 0 && n == 3 | none => false) then none
  else some (match retry with | some n => if n = 0 then 1 else n + 1 | none => 1)

/-- Model of `pageQueue.kill()` inside `_abortPaging`: every task still
in the pool is discarded. -/
def killQueue (_pending : List String) : List String := []

/-- Outcome of one `_catchErrors` call: either the pool is killed and
the whole operation resolves with the normalized error that triggered
the abort, or the same task is re-scheduled once with its incremented
counter after `newRetry * 1000` milliseconds.  A `rescheduled` outcome
schedules exactly one future attempt, so retries of one task are
sequential. -/
inductive CatchOutcome where
  | aborted (pendingAfter : List String) (err : NormalizedError)
  | rescheduled (newRetry : Nat) (delayMs : Nat)
deriving DecidableEq

/-- Model of `_catchErrors(task, e, url, cb)` together with
`_abortPaging` (src/index.js lines 468-484, 508-511). -/
def catchErrors (url : String) (e : ErrIn) (retry : Option Nat) (pending : List String) :
    CatchOutcome :=
  let error := buildError url "Request for a page of features failed" e
  match retryDecision retry with
  | none => CatchOutcome.aborted (killQueue pending) error
  | some n => CatchOutcome.rescheduled n (n * 1000)

/-- Number of fetch attempts made for one task when every attempt
fails, starting from the initial attempt with the counter unset: each
`rescheduled` outcome is one further attempt, an `aborted` outcome ends
the trace. -/
def attemptsGo : Nat → Option Nat → Nat
  | 0, _ => 0
  | fuel + 1, r =>
    match retryDecision r with
    | none => 0
    | some n => 1 + attemptsGo fuel (some n)

/-- Total attempts in the all-failures trace: the initial attempt plus
every re-scheduled one. -/
def totalAttempts (fuel : Nat) : Nat := 1 + attemptsGo fuel none

/-- Composition of the `response.on('end')` handler of
`_requestFeatures` (src/index.js lines 402-408) with `_decode`: each
decoder callback either delivers a page or enters `_catchErrors`; a
TypeError escaping `_decode` is recorded after it. -/
inductive StepEvent where
  | delivered (j : Json)
  | caught (c : CatchOutcome)
  | crashed

/-- One fetch-and-decode step of a page task. -/
def pageFetchStep (url : String) (retry : Option Nat) (pending : List String)
    (encoding : Option String) (chunks : List String) : List StepEvent :=
  let d := decodeRun encoding chunks
  (d.calls.map (fun r =>
    match r with
    | Except.ok j => StepEvent.delivered j
    | Except.error de => StepEvent.caught (catchErrors url (errInOfDecodeErr de) retry pending))) ++
  (if d.crashed then [StepEvent.crashed] else [])

/-! ## Metadata (src/index.js lines 148-204) -/

/-- One entry of `layer.fields`. -/
structure FieldDef where
  name : String
  type : String
deriving DecidableEq

/-- The parts of the layer-info payload `metadata()` reads. -/
structure LayerInfo where
  fields : List FieldDef
  maxRecordCount : Option Int
  currentVersion : Option Int
  supportsStatistics : Bool
  supportsPagination : Bool
deriving DecidableEq

/-- Model of `getObjectIdField(info)` (src/index.js lines 153-161):
`forEach` keeps assigning, so the last field typed `esriFieldTypeOID`
wins. -/
def getObjectIdField (info : LayerInfo) : Option String :=
  info.fields.foldl (fun acc f => if f.type = "esriFieldTypeOID" then some f.name else acc) none

/-- The object `metadata()` resolves with. -/
structure MetadataOut where
  layer : LayerInfo
  oid : Option String
  size : Option Int
  count : Option Int
deriving DecidableEq

/-- Result of one `metadata()` call. -/
inductive MetaResult where
  | ok (m : MetadataOut)
  | failed (msg : String)
deriving DecidableEq

/-- Model of `metadata(callback)` (src/index.js lines 184-204) as a
function of the `layerInfo` result and the `featureCount` result; the
count request runs only when `layer.currentVersion` is truthy. -/
def metadata (layerInfoRes : Except String LayerInfo) (featureCountRes : Except String Int) :
    MetaResult :=
  match layerInfoRes with
  | Except.error e => MetaResult.failed e
  | Except.ok layer =>
    let oid := getObjectIdField layer
    let size := layer.maxRecordCount
    match layer.currentVersion with
    | none => MetaResult.ok ⟨layer, oid, size, none⟩
    | some v =>
      if v = 0 then MetaResult.ok ⟨layer, oid, size, none⟩
      else
        match featureCountRes with
        | Except.error e => MetaResult.failed e
        | Except.ok c =>
          if c < 1 then MetaResult.failed "Service returned count of 0"
          else MetaResult.ok ⟨layer, oid, size, some c⟩

/-! ## Theorems -/

/-- Length of a range-page plan. -/
theorem rangePages_length (oid url : String) (L : Option Nat) (mn mx size : Nat) :
    (rangePages oid url L mn mx size).length = rangePageCount mn mx size := by
  simp [rangePages]

/-- The i-th element of a range-page plan is the i-th loop iteration. -/
theorem rangePages_get (oid url : String) (L : Option Nat) (mn mx size : Nat)
    (i : Nat) (hi : i < (rangePages oid url L mn mx size).length) :
    (rangePages oid url L mn mx size).get ⟨i, hi⟩ =
      rangePage oid url L mn mx size (rangePageCount mn mx size) i := by
  simp [rangePages, List.get_eq_getElem, List.getElem_map, List.getElem_range]

/-- C1: for statistics `{min, max}` and a positive page size, `_rangePages`
produces `max(ceil((max - min) / size), 1)` page requests, except that when
`max = size` the page count is `max`; page `i` carries lower bound
`min + size*i` and upper bound `min + size*(i+1) - 1`, except on the last
page where the upper bound is the global `max`; the where clause
interpolates exactly these bounds. -/
theorem rangePages_bounds_and_count (oid url : String) (L : Option Nat) (mn mx size : Nat)
    (hs : 0 < size) :
    ((mx = size → (rangePages oid url L mn mx size).length = mx) ∧
      (mx ≠ size → (rangePages oid url L mn mx size).length =
        Nat.max (ceilDivNat (mx - mn) size) 1)) ∧
    (∀ i, (hi : i < (rangePages oid url L mn mx size).length) →
      ((rangePages oid url L mn mx size).get ⟨i, hi⟩).pageMin = mn + size * i ∧
      (i < (rangePages oid url L mn mx size).length - 1 →
        ((rangePages oid url L mn mx size).get ⟨i, hi⟩).pageMax = mn + size * (i + 1) - 1) ∧
      (i = (rangePages oid url L mn mx size).length - 1 →
        ((rangePages oid url L mn mx size).get ⟨i, hi⟩).pageMax = mx) ∧
      ((rangePages oid url L mn mx size).get ⟨i, hi⟩).whereClause =
        oid ++ "<=" ++ toString (((rangePages oid url L mn mx size).get ⟨i, hi⟩).pageMax) ++
          "+AND+" ++ oid ++ ">=" ++
          toString (((rangePages oid url L mn mx size).get ⟨i, hi⟩).pageMin)) := by
  have hlen := rangePages_length oid url L mn mx size
  constructor
  · constructor
    · intro h
      rw [hlen, rangePageCount, if_pos h]
      exact Nat.max_eq_left (by omega)
    · intro h
      rw [hlen, rangePageCount, if_neg h]
  · intro i hi
    rw [rangePages_get]
    have hcount : i < rangePageCount mn mx size := by rw [hlen] at hi; exact hi
    refine ⟨rfl, ?_, ?_, rfl⟩
    · intro hlt
      rw [hlen] at hlt
      have hne : ¬ (i = rangePageCount mn mx size - 1) := by omega
      simp [rangePage, hne]
    · intro heq
      rw [hlen] at heq
      simp [rangePage, heq]

/-- Witness for C1 at the spec's example `min=1, max=250, size=100`:
3 pages with bounds `[1,100]`, `[101,200]`, `[201,250]`. -/
theorem rangePages_bounds_and_count_witness :
    (rangePages "id" "u" none 1 250 100).length = 3 ∧
    (rangePages "id" "u" none 1 250 100).map (fun p => (p.pageMin, p.pageMax)) =
      [(1, 100), (101, 200), (201, 250)] := by
  constructor
  · have h := (rangePages_bounds_and_count "id" "u" none 1 250 100 (by decide)).1.2 (by decide)
    rw [h]
    decide
  · rfl

/-- C2 evaluation at the failing input: `_idPages` on ids `1..10` with
`size = 4` and configured object-id field `"id"` produces the claimed
3 chunks with bounds `(0,4]`, `(4,8]`, `(8,10]`, but every where clause
names the literal string `oidField` in its upper comparison instead of
the configured field — the source quotes the variable name
(src/index.js line 321). -/
theorem idPages_eval_field_literal :
    (idPages "id" "http://h/FS" none 4 [1, 2, 3, 4, 5, 6, 7, 8, 9, 10]).map
        (fun p => (p.pageMin, p.pageMax)) = [(0, 4), (4, 8), (8, 10)] ∧
    (idPages "id" "http://h/FS" none 4 [1, 2, 3, 4, 5, 6, 7, 8, 9, 10]).map
        IdPage.whereClause =
      ["id > 0 AND oidField<=4", "id > 4 AND oidField<=8", "id > 8 AND oidField<=10"] :=
  ⟨rfl, rfl⟩

/-- C3: for a layer with native pagination, feature count `count` and a
positive effective page size, `pages()` returns exactly
`ceil(count / size)` offset-page requests with `resultOffset` values
`0, size, 2*size, ...`, pairwise distinct, each paired with
`resultRecordCount = size`; the effective size is
`min(parsed maxRecordCount, 1000)`, defaulting to `1000` when parsing
fails (`none`) or the minimum is falsy. -/
theorem offset_pages_plan_spec (url : String) (L : Option Nat) (count : Nat) (M : Option Int)
    (hs : 0 < effectiveSize M) :
    ((pagesPlanNative url L count M).length = ceilDivNat count (effectiveSize M).toNat ∧
      (∀ i, (hi : i < (pagesPlanNative url L count M).length) →
        ((pagesPlanNative url L count M).get ⟨i, hi⟩).resultOffset =
          i * (effectiveSize M).toNat ∧
        ((pagesPlanNative url L count M).get ⟨i, hi⟩).resultRecordCount =
          (effectiveSize M).toNat) ∧
      (∀ i j, (hi : i < (pagesPlanNative url L count M).length) →
        (hj : j < (pagesPlanNative url L count M).length) → i ≠ j →
        ((pagesPlanNative url L count M).get ⟨i, hi⟩).resultOffset ≠
          ((pagesPlanNative url L count M).get ⟨j, hj⟩).resultOffset)) ∧
    effectiveSize none = 1000 ∧
    (∀ m : Int, min m 1000 = 0 → effectiveSize (some m) = 1000) ∧
    (∀ m : Int, min m 1000 ≠ 0 → effectiveSize (some m) = min m 1000) := by
  have hplan : pagesPlanNative url L count M =
      offsetPages url L (ceilDivNat count (effectiveSize M).toNat) (effectiveSize M).toNat := by
    simp [pagesPlanNative, hs]
  have hget : ∀ i, (hi : i < (pagesPlanNative url L count M).length) →
      (pagesPlanNative url L count M).get ⟨i, hi⟩ =
        ⟨i * (effectiveSize M).toNat, (effectiveSize M).toNat,
          offsetPageUrl url L (i * (effectiveSize M).toNat) (effectiveSize M).toNat⟩ := by
    intro i hi
    rw [List.get_eq_getElem]
    simp only [hplan] at hi ⊢
    simp [offsetPages, List.getElem_map, List.getElem_range]
  refine ⟨⟨?_, ?_, ?_⟩, rfl, ?_, ?_⟩
  · rw [hplan]
    simp [offsetPages]
  · intro i hi
    rw [hget i hi]
    exact ⟨rfl, rfl⟩
  · intro i j hi hj hne
    rw [hget i hi, hget j hj]
    simp only
    intro hcontra
    have hpos : 0 < (effectiveSize M).toNat := by omega
    exact hne (Nat.eq_of_mul_eq_mul_right hpos hcontra)
  · intro m hm
    simp [effectiveSize, hm]
  · intro m hm
    simp [effectiveSize, hm]

/-- Witness for C3 at `count = 5`, `maxRecordCount = 2`: 3 pages with
offsets `0, 2, 4`. -/
theorem offset_pages_plan_spec_witness :
    (pagesPlanNative "u" none 5 (some 2)).length = 3 ∧
    (pagesPlanNative "u" none 5 (some 2)).map OffsetReq.resultOffset = [0, 2, 4] := by
  constructor
  · have h := (offset_pages_plan_spec "u" none 5 (some 2) (by decide)).1.1
    rw [h]
    decide
  · rfl

/-- C4: on a failed fetch, a task whose retry counter is `3` aborts the
whole operation — the pool is emptied and the operation resolves with
the normalized error built from the triggering error — while any other
counter value is incremented by exactly one (unset becomes `1`) and the
task is re-scheduled once after `newCounter * 1000` milliseconds. -/
theorem catchErrors_retry_policy (url : String) (e : ErrIn) (pending : List String) :
    catchErrors url e (some 3) pending =
      CatchOutcome.aborted [] (buildError url "Request for a page of features failed" e) ∧
    catchErrors url e none pending = CatchOutcome.rescheduled 1 1000 ∧
    (∀ n : Nat, 0 < n → n ≠ 3 →
      catchErrors url e (some n) pending =
        CatchOutcome.rescheduled (n + 1) ((n + 1) * 1000)) := by
  refine ⟨rfl, rfl, ?_⟩
  intro n hn h3
  have h0 : ¬ (n = 0) := by omega
  simp [catchErrors, retryDecision, killQueue, h0, h3]

/-- Witness for C4: a task with counter `1` is re-scheduled with counter
`2` after 2000 milliseconds. -/
theorem catchErrors_retry_policy_witness :
    catchErrors "u" ⟨none, none⟩ (some 1) [] = CatchOutcome.rescheduled 2 2000 :=
  (catchErrors_retry_policy "u" ⟨none, none⟩ []).2.2 1 (by decide) (by decide)

/-- C5 counterexample: when the retry counter reaches `3` (the third
recorded failure) the task is re-scheduled, not aborted, so a 4th fetch
attempt is made: in the trace where every attempt fails the task is
fetched 4 times before the abort. -/
theorem fourth_attempt_exists :
    retryDecision (some 2) = some 3 ∧ totalAttempts 9 = 4 := ⟨rfl, rfl⟩

/-- In the all-failures trace a counter of `3` ends the retry chain. -/
theorem attemptsGo_some3 : ∀ f, attemptsGo f (some 3) = 0
  | 0 => rfl
  | _ + 1 => rfl

/-- C5 amended: once the counter reaches `3` exactly one further (4th)
attempt is scheduled; when it fails the operation aborts, so the
all-failures trace contains exactly 4 fetch attempts however long it is
allowed to run, and a failure with counter `3` aborts. -/
theorem retry_abort_after_fourth (fuel : Nat) (h : 3 ≤ fuel) :
    totalAttempts fuel = 4 ∧ retryDecision (some 3) = none := by
  obtain ⟨f, rfl⟩ : ∃ f, fuel = f + 3 := ⟨fuel - 3, by omega⟩
  refine ⟨?_, rfl⟩
  show 1 + attemptsGo (f + 2 + 1) none = 4
  rw [attemptsGo]
  show 1 + (1 + attemptsGo (f + 1 + 1) (some 1)) = 4
  rw [attemptsGo]
  show 1 + (1 + (1 + attemptsGo (f + 0 + 1) (some 2))) = 4
  rw [attemptsGo]
  show 1 + (1 + (1 + (1 + attemptsGo f (some 3)))) = 4
  rw [attemptsGo_some3]

/-- Witness for the amended C5 at fuel 9. -/
theorem retry_abort_after_fourth_witness :
    totalAttempts 9 = 4 ∧ retryDecision (some 3) = none :=
  retry_abort_after_fourth 9 (by decide)

/-- C6: the decoder feeds `JSON.parse` the NaN-sanitized body when the
content-encoding is `gzip` and when the encoding is unrecognized, but
the raw body when it is `deflate`; consequently a gzip-encoded or plain
body whose numeric field holds the literal `NaN` decodes successfully
with that field `null`, while the same deflate-encoded body fails to
parse. -/
theorem decode_nan_sanitization (enc : Option String) (chunks : List String)
    (hg : enc ≠ some "gzip") (hd : enc ≠ some "deflate") :
    decodeText (some "gzip") chunks = sanitizeNaN (String.join chunks) ∧
    decodeText (some "deflate") chunks = String.join chunks ∧
    decodeText enc chunks = sanitizeNaN (String.join chunks) ∧
    decodeRun (some "gzip") ["\x7b\"a\":NaN\x7d"] =
      ⟨[Except.ok (Json.jobj [("a", Json.null)])], false⟩ ∧
    decodeRun none ["\x7b\"a\":NaN\x7d"] =
      ⟨[Except.ok (Json.jobj [("a", Json.null)])], false⟩ ∧
    (decodeRun (some "deflate") ["\x7b\"a\":NaN\x7d"]).calls =
      [Except.error DecodeErr.parseFailed] := by
  refine ⟨rfl, rfl, ?_, rfl, rfl, rfl⟩
  simp [decodeText, hg, hd]

/-- Witness for C6 at an unrecognized encoding. -/
theorem decode_nan_sanitization_witness :
    decodeText (some "br") ["\x7b\"a\":NaN\x7d"] =
      sanitizeNaN (String.join ["\x7b\"a\":NaN\x7d"]) :=
  (decode_nan_sanitization (some "br") ["\x7b\"a\":NaN\x7d"] (by decide) (by decide)).2.2.1

/-- C7: a response that parses successfully but whose payload carries a
truthy `error` field fails with that embedded error object, and through
the page-fetch path the failure surfaces as a normalized error: for the
spec's example body the operation ends with message "Request for a page
of features failed", the embedded code 400, and the defaulted type
"Unknown failure". -/
theorem decode_embedded_error_normalized (enc : Option String) (chunks : List String)
    (j e : Json) (hne : chunks ≠ []) (hp : parseJson (decodeText enc chunks) = some j)
    (he : j.getField "error" = some e) (ht : jsTruthy e = true) :
    decodeRun enc chunks = ⟨[Except.error (DecodeErr.serviceError e)], false⟩ ∧
    pageFetchStep "http://svc" (some 3) [] none
      ["\x7b\"error\": \x7b\"code\": 400, \"message\": \"bad\"\x7d\x7d"] =
      [StepEvent.caught (CatchOutcome.aborted []
        ⟨"Request for a page of features failed", "http://svc",
          "Request for a page of features failed", "Unknown failure", 400⟩)] := by
  constructor
  · have hlen : ¬ (chunks.length = 0) := by simpa [List.length_eq_zero] using hne
    simp [decodeRun, hlen, hp, he, ht]
  · rfl

/-- Witness for C7 at the spec's example payload. -/
theorem decode_embedded_error_normalized_witness :
    decodeRun none ["\x7b\"error\": \x7b\"code\": 400, \"message\": \"bad\"\x7d\x7d"] =
      ⟨[Except.error (DecodeErr.serviceError
        (Json.jobj [("code", Json.jnum 400), ("message", Json.jstr "bad")]))], false⟩ :=
  (decode_embedded_error_normalized none
    ["\x7b\"error\": \x7b\"code\": 400, \"message\": \"bad\"\x7d\x7d"]
    (Json.jobj [("error", Json.jobj [("code", Json.jnum 400), ("message", Json.jstr "bad")])])
    (Json.jobj [("code", Json.jnum 400), ("message", Json.jstr "bad")])
    (by decide) rfl rfl rfl).1

/-- C8: `metadata()` omits the feature count — returning only the layer,
the object-id field and the size — whenever `layer.currentVersion` is
absent, whatever the count oracle would answer; otherwise (for a truthy
version) it consults `featureCount` and fails with "Service returned
count of 0" whenever the successfully returned count is less than 1,
succeeding with the count attached when it is at least 1. -/
theorem metadata_count_policy (layer : LayerInfo) (fc : Except String Int) :
    (layer.currentVersion = none →
      metadata (Except.ok layer) fc =
        MetaResult.ok ⟨layer, getObjectIdField layer, layer.maxRecordCount, none⟩) ∧
    (∀ v : Int, layer.currentVersion = some v → v ≠ 0 →
      ∀ c : Int, fc = Except.ok c →
        ((c < 1 →
          metadata (Except.ok layer) fc = MetaResult.failed "Service returned count of 0") ∧
         (1 ≤ c →
          metadata (Except.ok layer) fc =
            MetaResult.ok ⟨layer, getObjectIdField layer, layer.maxRecordCount, some c⟩))) := by
  constructor
  · intro hv
    simp [metadata, hv]
  · intro v hv hv0 c hc
    constructor
    · intro hlt
      simp [metadata, hv, hv0, hc, hlt]
    · intro hge
      have hnlt : ¬ (c < 1) := by omega
      simp [metadata, hv, hv0, hc, hnlt]

/-- Witness for C8: a zero count fails even though the count request
succeeded. -/
theorem metadata_count_policy_witness :
    metadata
      (Except.ok ⟨[⟨"OBJECTID", "esriFieldTypeOID"⟩], some 1000, some 10, true, true⟩)
      (Except.ok 0) = MetaResult.failed "Service returned count of 0" :=
  ((metadata_count_policy ⟨[⟨"OBJECTID", "esriFieldTypeOID"⟩], some 1000, some 10, true, true⟩
      (Except.ok 0)).2 10 rfl (by decide) 0 rfl).1 (by decide)

/-- C9 evaluation at the failing input: constructing the service from
`http://example.com/FeatureServer/3` with no options stores layer "3"
on the instance and strips it from the base url, yet the page requests
built by all three strategies interpolate `options.layer || 0`, so
every page url starts `{serviceUrl}/0/` instead of `{serviceUrl}/3/`. -/
theorem page_urls_ignore_url_layer :
    instLayer (featureServiceInit "http://example.com/FeatureServer/3" none) = "3" ∧
    (featureServiceInit "http://example.com/FeatureServer/3" none).url =
      "http://example.com/FeatureServer" ∧
    (offsetPages (featureServiceInit "http://example.com/FeatureServer/3" none).url
        (featureServiceInit "http://example.com/FeatureServer/3" none).optionsLayer 1 100).map
        OffsetReq.req =
      ["http://example.com/FeatureServer/0/query?outSR=4326&f=json&outFields=*&where=1=1&resultOffset=0&resultRecordCount=100&geometry=&returnGeometry=true&geometryPrecision="] ∧
    (rangePages "id" (featureServiceInit "http://example.com/FeatureServer/3" none).url
        (featureServiceInit "http://example.com/FeatureServer/3" none).optionsLayer
        1 250 100).head?.map RangePage.req =
      some "http://example.com/FeatureServer/0/query?outSR=4326&where=id<=100+AND+id>=1&f=json&outFields=*&geometry=&returnGeometry=true&geometryPrecision=" ∧
    (idPages "id" (featureServiceInit "http://example.com/FeatureServer/3" none).url
        (featureServiceInit "http://example.com/FeatureServer/3" none).optionsLayer
        100 [1, 2]).head?.map IdPage.req =
      some "http://example.com/FeatureServer/0/query?outSR=4326&where=id > 0 AND oidField<=2&f=json&outFields=*&geometry=&returnGeometry=true&geometryPrecision=10" :=
  ⟨rfl, rfl, rfl, rfl, rfl⟩

/-- C10: for every non-empty input whose selected text fails to parse as
JSON, `_decode` invokes its callback with the parse error and then,
because the catch branch does not return, falls through to the
`json.error` member access with `json` still undefined — the
dereference of an undefined value is reached, so the parse-error branch
is not a safely terminating error branch. -/
theorem decode_parse_error_fallthrough (enc : Option String) (chunks : List String)
    (hne : chunks ≠ []) (hp : parseJson (decodeText enc chunks) = none) :
    (decodeRun enc chunks).calls = [Except.error DecodeErr.parseFailed] ∧
    (decodeRun enc chunks).crashed = true := by
  have hlen : ¬ (chunks.length = 0) := by simpa [List.length_eq_zero] using hne
  simp [decodeRun, hlen, hp]

/-- Witness for C10 at a body that is not JSON. -/
theorem decode_parse_error_fallthrough_witness :
    (decodeRun none ["not json"]).calls = [Except.error DecodeErr.parseFailed] ∧
    (decodeRun none ["not json"]).crashed = true :=
  decode_parse_error_fallthrough none ["not json"] (by decide) rfl
